import Mathlib

/-!
Shallow embedding of the AlienShotServer frontend (Vue 3 SPA):
the HTTP client layer `api.js`, the admin console view and the
public share view, together with a spec-modelled fragment of the
backend Share Service needed for the atomicity claim.
-/

namespace AlienShot

/-! ## Base URL normalization (`api.js`)

`const rawBaseUrl = import.meta.env.VITE_API_BASE_URL || 'http://localhost:5000'`
`export const apiBaseUrl = rawBaseUrl.replace(/\/$/, '')`

Strings are modelled as `List Char`.  JavaScript `||` treats the empty
string as falsy, and `String.replace` with the non-global regex `/\/$/`
removes at most one trailing slash. -/

def defaultBaseUrl : List Char := "http://localhost:5000".toList

def rawBaseUrl (env : Option (List Char)) : List Char :=
  match env with
  | some s => if s = [] then defaultBaseUrl else s
  | none => defaultBaseUrl

def stripTrailingSlash (s : List Char) : List Char :=
  if s.getLast? = some '/' then s.dropLast else s

def apiBaseUrl (env : Option (List Char)) : List Char :=
  stripTrailingSlash (rawBaseUrl env)

/-- A request URL built by template-literal concatenation
`${apiBaseUrl}/rest...` (the `rest` argument excludes the leading slash). -/
def fileUrlChars (env : Option (List Char)) (rest : List Char) : List Char :=
  apiBaseUrl env ++ '/' :: rest

/-! ## Requests issued by the client (`api.js` + both views) -/

inductive Method
  | get
  | post
  | delete
deriving DecidableEq

/-- The JSON body shapes the client sends: an object that may or may
not carry a `photo_ids` field. -/
structure JsonBody where
  photo_ids : Option (List Nat)
deriving DecidableEq

structure Request where
  method : Method
  path : String
  headers : List (String × String)
  query : List (String × String)
  body : Option JsonBody
deriving DecidableEq

def bodyPhotoIds (r : Request) : Option (List Nat) :=
  r.body.bind JsonBody.photo_ids

/-- `adminHeaders = (password) => ({'X-Admin-Password': password})` -/
def adminHeaders (password : String) : List (String × String) :=
  [("X-Admin-Password", password)]

/-- `photoFileUrl(photoId, password)` appends `?password=...` built by
`URLSearchParams({ password })`. -/
def photoFileUrl (photoId : Nat) (password : String) : Request :=
  { method := .get
    path := "/photos/" ++ toString photoId ++ "/file"
    headers := []
    query := [("password", password)]
    body := none }

/-- `shareFileUrl(token, photoId)` — no credentials. -/
def shareFileUrl (token : String) (photoId : Nat) : Request :=
  { method := .get
    path := "/shares/" ++ token ++ "/files/" ++ toString photoId
    headers := []
    query := []
    body := none }

/-- Admin view `fetchPhotos`: `api.get('/photos', {headers: adminHeaders(pw)})`. -/
def fetchPhotosRequest (password : String) : Request :=
  { method := .get
    path := "/photos"
    headers := adminHeaders password
    query := []
    body := none }

/-- Admin view `handleUpload`: `api.post('/images/add', data,
{headers: {...adminHeaders(pw), 'Content-Type': 'multipart/form-data'}})`.
The multipart payload itself is not a JSON body. -/
def uploadRequest (password : String) : Request :=
  { method := .post
    path := "/images/add"
    headers := adminHeaders password ++ [("Content-Type", "multipart/form-data")]
    query := []
    body := none }

/-- Admin view `deleteSelected`: `api.delete('/photos', {headers, data: {photo_ids}})`. -/
def deletePhotosRequest (password : String) (ids : List Nat) : Request :=
  { method := .delete
    path := "/photos"
    headers := adminHeaders password
    query := []
    body := some { photo_ids := some ids } }

/-- Admin view `generateShare`: `api.post('/shares', {photo_ids}, {headers})`. -/
def createShareRequest (password : String) (ids : List Nat) : Request :=
  { method := .post
    path := "/shares"
    headers := adminHeaders password
    query := []
    body := some { photo_ids := some ids } }

/-- Share view `fetchShare`: `api.get('/shares/' + token)` — no headers. -/
def fetchShareRequest (token : String) : Request :=
  { method := .get
    path := "/shares/" ++ token
    headers := []
    query := []
    body := none }

/-- Share view `downloadPhotos`: posts to `/shares/{token}/download` the body
`photoIds.length ? {photo_ids: photoIds} : {}` with no headers. -/
def downloadRequest (token : String) (photoIds : List Nat) : Request :=
  { method := .post
    path := "/shares/" ++ token ++ "/download"
    headers := []
    query := []
    body := some { photo_ids := if photoIds.isEmpty then none else some photoIds } }

/-- A request that carries no admin secret anywhere: no headers at all and
no query parameters at all. -/
def noAdminSecret (r : Request) : Prop :=
  r.headers = [] ∧ r.query = []

/-! ## Shared data shapes -/

/-- A photo record as consumed by the views (`photo.id`,
`photo.original_name`, `photo.created_at`). -/
structure Photo where
  id : Nat
  original_name : String
  created_at : String
deriving DecidableEq

/-- `POST /shares` response as consumed by the admin view:
`{token, share_url, photos}`. -/
structure ShareDetails where
  token : String
  share_url : String
  photos : List Photo
deriving DecidableEq

/-- The part of an axios error the views look at:
`error.response` may be absent (network failure); when present it has a
`status` and possibly a string `data`. -/
structure HttpErrorResponse where
  status : Nat
  data : Option String
deriving DecidableEq

/-- JavaScript `a || b` on an optional string: `undefined` and the empty
string are falsy. -/
def jsOr (data : Option String) (fallback : String) : String :=
  match data with
  | some d => if d = "" then fallback else d
  | none => fallback

/-! ## Admin view (`AdminView.vue`) -/

namespace AdminView

/-- The reactive state of the admin console, with the sessionStorage copy
of the password modelled explicitly. -/
structure State where
  adminPassword : String
  sessionStored : Option String
  photos : List Photo
  selectedIds : List Nat
  statusMessage : String
  errorMessage : String
  shareDetails : Option ShareDetails
deriving DecidableEq

/-- `isUnlocked = computed(() => Boolean(adminPassword.value))` -/
def isUnlocked (s : State) : Bool :=
  s.adminPassword != ""

/-- `handleError`: a 403 response locks the console (clears the in-memory
password and the sessionStorage copy); any other error leaves the secret
alone and shows `error.response?.data ?? 'Erreur inattendue'`. -/
def handleError (s : State) (e : Option HttpErrorResponse) : State :=
  match e with
  | some r =>
    if r.status = 403 then
      { s with errorMessage := "Mot de passe invalide."
               adminPassword := ""
               sessionStored := none }
    else
      { s with errorMessage := r.data.getD "Erreur inattendue" }
  | none => { s with errorMessage := "Erreur inattendue" }

/-- `fetchPhotos`: guarded on a non-empty password; on success stores the
listing, clears the selection and the error message. The HTTP outcome is
passed in explicitly. -/
def fetchPhotos (s : State) (r : Except (Option HttpErrorResponse) (List Photo)) : State :=
  if s.adminPassword = "" then s
  else
    match r with
    | .ok ps =>
      { s with photos := ps
               selectedIds := []
               statusMessage := "Chargé (" ++ toString ps.length ++ " photos)"
               errorMessage := "" }
    | .error e => handleError s e

/-- `toggleSelection` in the admin view: remove the id when present
(`filter(value !== id)`), append it when absent. -/
def toggleSelection (selectedIds : List Nat) (id : Nat) : List Nat :=
  if selectedIds.contains id then
    selectedIds.filter (fun value => value != id)
  else
    selectedIds ++ [id]

/-- `deleteSelected`: guarded on a non-empty selection; on success sets the
status, clears `shareDetails` and re-runs `fetchPhotos`; on error runs
`handleError`. -/
def deleteSelected (s : State) (deleteResult : Except (Option HttpErrorResponse) Unit)
    (fetchResult : Except (Option HttpErrorResponse) (List Photo)) : State :=
  if s.selectedIds.length = 0 then s
  else
    match deleteResult with
    | .ok _ =>
      fetchPhotos { s with statusMessage := "Photos supprimées", shareDetails := none } fetchResult
    | .error e => handleError s e

/-- `generateShare`: guarded on a non-empty selection; on success stores the
response as `shareDetails`. -/
def generateShare (s : State) (r : Except (Option HttpErrorResponse) ShareDetails) : State :=
  if s.selectedIds.length = 0 then s
  else
    match r with
    | .ok d => { s with shareDetails := some d, statusMessage := "Lien de partage créé" }
    | .error e => handleError s e

/-- What the share-card template renders from `shareDetails`: the token text,
the anchor href and text, the QR payload, and the photo count. -/
structure RenderedShareCard where
  displayedToken : String
  linkHref : String
  linkText : String
  qrValue : String
  photoCount : Nat
deriving DecidableEq

def renderShareCard (d : ShareDetails) : RenderedShareCard :=
  { displayedToken := d.token
    linkHref := d.share_url
    linkText := d.share_url
    qrValue := d.share_url
    photoCount := d.photos.length }

end AdminView

/-! ## Share view (`ShareView.vue`) -/

namespace ShareView

structure State where
  photos : List Photo
  selectedIds : List Nat
  loading : Bool
  errorMessage : String
  shareDate : String
deriving DecidableEq

/-- Initial refs: empty gallery, empty selection, `loading = true`. -/
def initState : State :=
  { photos := [], selectedIds := [], loading := true, errorMessage := "", shareDate := "" }

/-- `fetchShare`: clears the error and sets `loading` on entry; on success
consumes exactly `response.data.photos` and `response.data.created_at` and
resets the selection; on failure shows
`error.response?.data || 'Partage introuvable.'`; `loading` ends false. -/
def fetchShare (s : State) (r : Except (Option String) (String × List Photo)) : State :=
  let s0 := { s with loading := true, errorMessage := "" }
  match r with
  | .ok result =>
    { s0 with photos := result.2
              shareDate := result.1
              selectedIds := []
              loading := false }
  | .error data =>
    { s0 with errorMessage := jsOr data "Partage introuvable.", loading := false }

/-- `toggleSelection` in the share view — textually identical to the admin
view's implementation. -/
def toggleSelection (selectedIds : List Nat) (id : Nat) : List Nat :=
  if selectedIds.contains id then
    selectedIds.filter (fun value => value != id)
  else
    selectedIds ++ [id]

/-- Template guard for the gallery:
`v-if="!loading && !errorMessage"`. -/
def galleryRendered (s : State) : Prop :=
  s.loading = false ∧ s.errorMessage = ""

/-- `downloadPhotos(photoIds)`: bails out when the gallery is empty,
otherwise issues the download request. -/
def downloadPhotos (token : String) (s : State) (photoIds : List Nat) : Option Request :=
  if s.photos.isEmpty then none
  else some (downloadRequest token photoIds)

/-- `downloadSelected`: bails out on an empty selection, else downloads it. -/
def downloadSelected (token : String) (s : State) : Option Request :=
  if s.selectedIds.length = 0 then none
  else downloadPhotos token s s.selectedIds

/-- `downloadAll = () => downloadPhotos([])`. -/
def downloadAll (token : String) (s : State) : Option Request :=
  downloadPhotos token s []

/-- Events driving the share view: fetch outcomes (mounted or token-change)
and checkbox toggles. -/
inductive Event
  | fetchOk (created : String) (photos : List Photo)
  | fetchErr (data : Option String)
  | toggle (id : Nat)

def step (s : State) (e : Event) : State :=
  match e with
  | .fetchOk c ps => fetchShare s (.ok (c, ps))
  | .fetchErr d => fetchShare s (.error d)
  | .toggle id => { s with selectedIds := toggleSelection s.selectedIds id }

/-- States the share view can reach: toggles only ever carry the id of a
currently rendered photo (the grid emits `photo.id` for `photo in photos`). -/
inductive Reachable : State → Prop
  | init : Reachable initState
  | fetchOk {s : State} (c : String) (ps : List Photo) :
      Reachable s → Reachable (step s (.fetchOk c ps))
  | fetchErr {s : State} (d : Option String) :
      Reachable s → Reachable (step s (.fetchErr d))
  | toggle {s : State} (id : Nat) :
      Reachable s → id ∈ s.photos.map Photo.id → Reachable (step s (.toggle id))

end ShareView

/-! ## Spec-modelled backend fragment (Share Service `create`) -/

/-- Modelled from the spec: the backend Share Service `create(ids)` operation
(spec §4.4) is not among the provided source files; per the spec it validates
that every requested id exists in the Metadata Store and, if any id is
missing (or the set is empty, §7 `InvalidRequest`), fails atomically,
persisting nothing; on success it appends the share record. The returned
pair is (created record if any, resulting store). -/
structure Store where
  photoIds : List Nat
  shares : List (String × List Nat)
deriving DecidableEq

def Store.createShare (store : Store) (token : String) (ids : List Nat) :
    Option (String × List Nat) × Store :=
  if ids = [] then (none, store)
  else if ids.all (fun i => store.photoIds.contains i) then
    ((token, ids), { store with shares := store.shares ++ [(token, ids)] })
  else (none, store)

/-! ## Helper lemmas -/

/-- Membership after one toggle: `x` survives exactly when it was selected
and is not the toggled id, or it is the toggled id and was absent. -/
theorem mem_toggle_iff (sel : List Nat) (id x : Nat) :
    x ∈ AdminView.toggleSelection sel id ↔
      ((x ∈ sel ∧ x ≠ id) ∨ (x = id ∧ id ∉ sel)) := by
  unfold AdminView.toggleSelection
  by_cases h : id ∈ sel
  · simp [h, List.mem_filter]
  · simp [h]
    tauto

/-- The two views' `toggleSelection` implementations are literally the same
function. -/
theorem toggle_defs_agree (sel : List Nat) (id : Nat) :
    AdminView.toggleSelection sel id = ShareView.toggleSelection sel id := rfl

/-- Toggling an id drawn from `ids` keeps the selection inside `ids`. -/
theorem toggle_subset {sel ids : List Nat} {id : Nat}
    (hsub : sel ⊆ ids) (hid : id ∈ ids) :
    ShareView.toggleSelection sel id ⊆ ids := by
  intro x hx
  rw [← toggle_defs_agree] at hx
  rcases (mem_toggle_iff sel id x).1 hx with ⟨hmem, _⟩ | ⟨heq, _⟩
  · exact hsub hmem
  · exact heq ▸ hid

/-! ## Claim theorems -/

/-- Claim C1: every admin-console request to a privileged endpoint
(GET /photos, POST /images/add, DELETE /photos, POST /shares) carries the
admin secret in the `X-Admin-Password` header, the admin file URL carries it
as the `password` query parameter, and every request issued by the public
share view (resolve, per-file URL, archive download) carries no admin secret
at all. -/
theorem admin_secret_placement (password token : String) (photoId : Nat) (ids : List Nat) :
    ("X-Admin-Password", password) ∈ (fetchPhotosRequest password).headers ∧
    ("X-Admin-Password", password) ∈ (uploadRequest password).headers ∧
    ("X-Admin-Password", password) ∈ (deletePhotosRequest password ids).headers ∧
    ("X-Admin-Password", password) ∈ (createShareRequest password ids).headers ∧
    ("password", password) ∈ (photoFileUrl photoId password).query ∧
    noAdminSecret (fetchShareRequest token) ∧
    noAdminSecret (shareFileUrl token photoId) ∧
    noAdminSecret (downloadRequest token ids) := by
  refine ⟨?_, ?_, ?_, ?_, ?_, ?_, ?_, ?_⟩ <;>
    simp [fetchPhotosRequest, uploadRequest, deletePhotosRequest, createShareRequest,
      photoFileUrl, fetchShareRequest, shareFileUrl, downloadRequest, adminHeaders,
      noAdminSecret]

/-- Claim C2: a share-view archive download's JSON body has a `photo_ids`
field exactly when the requested subset is non-empty; `downloadAll` sends an
empty object (standing for the full bound set) and a non-empty selection is
sent as `{photo_ids: selection}`. -/
theorem download_body_spec (token : String) (ids : List Nat) (s : ShareView.State)
    (req : Request) :
    ((bodyPhotoIds (downloadRequest token ids)).isSome ↔ ids ≠ []) ∧
    (ids ≠ [] → bodyPhotoIds (downloadRequest token ids) = some ids) ∧
    (ShareView.downloadAll token s = some req → req.body = some { photo_ids := none }) ∧
    (ShareView.downloadSelected token s = some req →
      req.body = some { photo_ids := some s.selectedIds } ∧ s.selectedIds ≠ []) := by
  refine ⟨?_, ?_, ?_, ?_⟩
  · rcases ids with _ | ⟨i, tl⟩ <;> simp [bodyPhotoIds, downloadRequest]
  · intro h
    rcases ids with _ | ⟨i, tl⟩
    · exact absurd rfl h
    · simp [bodyPhotoIds, downloadRequest]
  · intro h
    unfold ShareView.downloadAll ShareView.downloadPhotos at h
    by_cases hp : s.photos.isEmpty
    · rw [if_pos hp] at h
      exact Option.noConfusion h
    · rw [if_neg hp] at h
      injection h with h'
      subst h'
      simp [downloadRequest]
  · intro h
    unfold ShareView.downloadSelected at h
    by_cases hsel : s.selectedIds.length = 0
    · rw [if_pos hsel] at h
      exact Option.noConfusion h
    · rw [if_neg hsel] at h
      unfold ShareView.downloadPhotos at h
      by_cases hp : s.photos.isEmpty
      · rw [if_pos hp] at h
        exact Option.noConfusion h
      · rw [if_neg hp] at h
        injection h with h'
        have hne : s.selectedIds ≠ [] := fun hnil => hsel (by simp [hnil])
        subst h'
        refine ⟨?_, hne⟩
        rcases hl : s.selectedIds with _ | ⟨i, tl⟩
        · exact absurd hl hne
        · simp [downloadRequest]

/-- Witness for C2 at a concrete state. -/
theorem download_body_spec_witness :
    bodyPhotoIds (downloadRequest "t" [1, 2]) = some [1, 2] :=
  (download_body_spec "t" [1, 2]
    { photos := [], selectedIds := [], loading := false, errorMessage := "", shareDate := "" }
    (downloadRequest "t" [1, 2])).2.1 (by decide)

/-- Claim C9: `toggleSelection` is an involution on membership — one
application flips the membership of the toggled id, leaves every other id's
membership unchanged, two applications restore the original membership, and
the admin view and share view implementations coincide. -/
theorem toggleSelection_involution (sel : List Nat) (id x : Nat) :
    AdminView.toggleSelection sel id = ShareView.toggleSelection sel id ∧
    (id ∈ sel → id ∉ AdminView.toggleSelection sel id) ∧
    (id ∉ sel → id ∈ AdminView.toggleSelection sel id) ∧
    (x ≠ id → (x ∈ AdminView.toggleSelection sel id ↔ x ∈ sel)) ∧
    (x ∈ AdminView.toggleSelection (AdminView.toggleSelection sel id) id ↔ x ∈ sel) := by
  refine ⟨toggle_defs_agree sel id, ?_, ?_, ?_, ?_⟩
  · intro hin hmem
    rcases (mem_toggle_iff sel id id).1 hmem with ⟨_, hne⟩ | ⟨_, habs⟩
    · exact hne rfl
    · exact habs hin
  · intro hout
    exact (mem_toggle_iff sel id id).2 (Or.inr ⟨rfl, hout⟩)
  · intro hne
    rw [mem_toggle_iff]
    constructor
    · rintro (⟨hmem, _⟩ | ⟨heq, _⟩)
      · exact hmem
      · exact absurd heq hne
    · intro hmem
      exact Or.inl ⟨hmem, hne⟩
  · rw [mem_toggle_iff, mem_toggle_iff, mem_toggle_iff]
    by_cases hx : x = id <;> by_cases hid : id ∈ sel <;> simp [hx, hid]

/-- Witness for C9 at concrete selections. -/
theorem toggleSelection_involution_witness :
    (1 ∉ AdminView.toggleSelection [1, 2] 1) ∧
    (3 ∈ AdminView.toggleSelection [1, 2] 3) ∧
    (2 ∈ AdminView.toggleSelection [1, 2] 1 ↔ 2 ∈ [1, 2]) :=
  ⟨(toggleSelection_involution [1, 2] 1 2).2.1 (by decide),
   (toggleSelection_involution [1, 2] 3 2).2.2.1 (by decide),
   (toggleSelection_involution [1, 2] 1 2).2.2.2.1 (by decide)⟩

/-- Claim C3 counterexample: after a successful resolve, a failing re-fetch
(token change) leaves the previously loaded photos in place — the photo list
is not empty after the failure, contradicting the claim as stated. -/
theorem fetchShare_failure_keeps_stale_photos :
    (ShareView.fetchShare
      (ShareView.fetchShare ShareView.initState
        (.ok ("2024-01-01", [{ id := 1, original_name := "a.jpg", created_at := "2024-01-01" }])))
      (.error none)).photos ≠ [] := by
  decide

/-- Claim C3 (amended): resolving a share sends a credential-free
GET /shares/{token}; a success is consumed as exactly created_at and photos
(resetting the selection); a failure shows the server-provided message (or
the fallback), suppresses the gallery, and leaves the photo list unchanged
— hence empty when the failure happens on the initial load. -/
theorem fetchShare_spec (token : String) (s : ShareView.State) (data : Option String)
    (c : String) (ps : List Photo) :
    noAdminSecret (fetchShareRequest token) ∧
    (fetchShareRequest token).method = .get ∧
    (fetchShareRequest token).path = "/shares/" ++ token ∧
    ((ShareView.fetchShare s (.ok (c, ps))).photos = ps ∧
     (ShareView.fetchShare s (.ok (c, ps))).shareDate = c ∧
     (ShareView.fetchShare s (.ok (c, ps))).selectedIds = []) ∧
    ((ShareView.fetchShare s (.error data)).errorMessage = jsOr data "Partage introuvable." ∧
     ¬ ShareView.galleryRendered (ShareView.fetchShare s (.error data)) ∧
     (ShareView.fetchShare s (.error data)).photos = s.photos) ∧
    (ShareView.fetchShare ShareView.initState (.error data)).photos = [] := by
  refine ⟨⟨rfl, rfl⟩, rfl, rfl, ⟨rfl, rfl, rfl⟩, ⟨rfl, ?_, rfl⟩, rfl⟩
  rintro ⟨-, hmsg⟩
  revert hmsg
  simp only [ShareView.fetchShare]
  rcases data with - | d
  · simp [jsOr]
  · simp only [jsOr]
    by_cases hd : d = "" <;> simp [hd]

/-- Claim C4: `handleError` distinguishes 403 from every other failure — a
403 clears the in-memory password and the sessionStorage copy (locking the
console), while any other failure leaves the secret and its stored copy
untouched and displays the server message or a generic fallback. -/
theorem handleError_distinguishes (s : AdminView.State) (r : HttpErrorResponse) :
    (r.status = 403 →
      (AdminView.handleError s (some r)).adminPassword = "" ∧
      (AdminView.handleError s (some r)).sessionStored = none ∧
      AdminView.isUnlocked (AdminView.handleError s (some r)) = false) ∧
    (r.status ≠ 403 →
      (AdminView.handleError s (some r)).adminPassword = s.adminPassword ∧
      (AdminView.handleError s (some r)).sessionStored = s.sessionStored ∧
      (AdminView.handleError s (some r)).errorMessage = r.data.getD "Erreur inattendue") ∧
    ((AdminView.handleError s none).adminPassword = s.adminPassword ∧
     (AdminView.handleError s none).sessionStored = s.sessionStored ∧
     (AdminView.handleError s none).errorMessage = "Erreur inattendue") := by
  refine ⟨?_, ?_, ?_⟩
  · intro h
    simp [AdminView.handleError, AdminView.isUnlocked, h]
  · intro h
    simp [AdminView.handleError, h]
  · simp [AdminView.handleError]

/-- Witness for C4 at a concrete state and both error shapes. -/
theorem handleError_distinguishes_witness :
    ((AdminView.handleError
        { adminPassword := "pw", sessionStored := some "pw", photos := [], selectedIds := [],
          statusMessage := "", errorMessage := "", shareDetails := none }
        (some { status := 403, data := none })).adminPassword = "" ∧
     (AdminView.handleError
        { adminPassword := "pw", sessionStored := some "pw", photos := [], selectedIds := [],
          statusMessage := "", errorMessage := "", shareDetails := none }
        (some { status := 403, data := none })).sessionStored = none ∧
     AdminView.isUnlocked (AdminView.handleError
        { adminPassword := "pw", sessionStored := some "pw", photos := [], selectedIds := [],
          statusMessage := "", errorMessage := "", shareDetails := none }
        (some { status := 403, data := none })) = false) ∧
    ((AdminView.handleError
        { adminPassword := "pw", sessionStored := some "pw", photos := [], selectedIds := [],
          statusMessage := "", errorMessage := "", shareDetails := none }
        (some { status := 500, data := some "boom" })).adminPassword = "pw" ∧
     (AdminView.handleError
        { adminPassword := "pw", sessionStored := some "pw", photos := [], selectedIds := [],
          statusMessage := "", errorMessage := "", shareDetails := none }
        (some { status := 500, data := some "boom" })).sessionStored = some "pw" ∧
     (AdminView.handleError
        { adminPassword := "pw", sessionStored := some "pw", photos := [], selectedIds := [],
          statusMessage := "", errorMessage := "", shareDetails := none }
        (some { status := 500, data := some "boom" })).errorMessage =
       (some "boom").getD "Erreur inattendue") :=
  ⟨(handleError_distinguishes
      { adminPassword := "pw", sessionStored := some "pw", photos := [], selectedIds := [],
        statusMessage := "", errorMessage := "", shareDetails := none }
      { status := 403, data := none }).1 (by decide),
   (handleError_distinguishes
      { adminPassword := "pw", sessionStored := some "pw", photos := [], selectedIds := [],
        statusMessage := "", errorMessage := "", shareDetails := none }
      { status := 500, data := some "boom" }).2.1 (by decide)⟩

/-- Claim C5: share creation is atomic — when at least one requested id is
missing from the Metadata Store, nothing is created, the store is unchanged,
and every share referencing a requested id afterwards already existed before;
the client posts the entire id set in a single /shares request. -/
theorem createShare_atomic (store : Store) (token : String) (ids : List Nat)
    (missing : Nat) (hmem : missing ∈ ids) (hmiss : missing ∉ store.photoIds) :
    (store.createShare token ids).1 = none ∧
    (store.createShare token ids).2 = store ∧
    (∀ rec ∈ (store.createShare token ids).2.shares,
      (∃ i ∈ ids, i ∈ rec.2) → rec ∈ store.shares) ∧
    (∀ password, bodyPhotoIds (createShareRequest password ids) = some ids) := by
  have hne : ids ≠ [] := by
    intro h
    rw [h] at hmem
    exact absurd hmem (List.not_mem_nil missing)
  have hall : ids.all (fun i => store.photoIds.contains i) = false := by
    rw [List.all_eq_false]
    exact ⟨missing, hmem, by simpa using hmiss⟩
  have hrun : store.createShare token ids = (none, store) := by
    unfold Store.createShare
    rw [if_neg hne, hall]
    rfl
  refine ⟨by rw [hrun], by rw [hrun], ?_, ?_⟩
  · intro rec hrec _
    rw [hrun] at hrec
    exact hrec
  · intro password
    rfl

/-- Witness for C5 at a concrete store and id set. -/
theorem createShare_atomic_witness :
    (Store.createShare { photoIds := [1, 2], shares := [] } "tok" [1, 3]).1 = none ∧
    (Store.createShare { photoIds := [1, 2], shares := [] } "tok" [1, 3]).2 =
      { photoIds := [1, 2], shares := [] } ∧
    (∀ rec ∈ (Store.createShare { photoIds := [1, 2], shares := [] } "tok" [1, 3]).2.shares,
      (∃ i ∈ [1, 3], i ∈ rec.2) →
        rec ∈ ({ photoIds := [1, 2], shares := [] } : Store).shares) ∧
    (∀ password, bodyPhotoIds (createShareRequest password [1, 3]) = some [1, 3]) :=
  createShare_atomic { photoIds := [1, 2], shares := [] } "tok" [1, 3] 3
    (by decide) (by decide)

/-- Claim C6: creating a share posts `{photo_ids}` with the admin header to
/shares; the success response is stored as `shareDetails` and rendered as
the token text, an anchor on share_url, a QR code of share_url, and the
length of the returned photo list. -/
theorem generateShare_spec (password : String) (ids : List Nat) (s : AdminView.State)
    (d : ShareDetails) (hsel : s.selectedIds ≠ []) :
    (createShareRequest password ids).method = .post ∧
    (createShareRequest password ids).path = "/shares" ∧
    ("X-Admin-Password", password) ∈ (createShareRequest password ids).headers ∧
    bodyPhotoIds (createShareRequest password ids) = some ids ∧
    (AdminView.generateShare s (.ok d)).shareDetails = some d ∧
    AdminView.renderShareCard d =
      { displayedToken := d.token, linkHref := d.share_url, linkText := d.share_url,
        qrValue := d.share_url, photoCount := d.photos.length } := by
  have hlen : ¬ s.selectedIds.length = 0 := by
    intro h
    exact hsel (List.length_eq_zero.1 h)
  refine ⟨rfl, rfl, ?_, rfl, ?_, rfl⟩
  · simp [createShareRequest, adminHeaders]
  · unfold AdminView.generateShare
    rw [if_neg hlen]

/-- Witness for C6 at a concrete unlocked state. -/
theorem generateShare_spec_witness :
    (AdminView.generateShare
      { adminPassword := "pw", sessionStored := some "pw", photos := [], selectedIds := [1],
        statusMessage := "", errorMessage := "", shareDetails := none }
      (.ok { token := "tok", share_url := "http://f/share/tok", photos := [] })).shareDetails =
      some { token := "tok", share_url := "http://f/share/tok", photos := [] } :=
  (generateShare_spec "pw" [1]
    { adminPassword := "pw", sessionStored := some "pw", photos := [], selectedIds := [1],
      statusMessage := "", errorMessage := "", shareDetails := none }
    { token := "tok", share_url := "http://f/share/tok", photos := [] }
    (by decide)).2.2.2.2.1

/-- Claim C7: deleting photos sends DELETE /photos with the admin header and
`{photo_ids}`; a successful delete clears the displayed share details
(whatever the refetch outcome) and, when the refetch succeeds, replaces the
listing with the server's fresh one and empties the selection. -/
theorem deleteSelected_spec (password : String) (ids : List Nat) (s : AdminView.State)
    (fetchResult : Except (Option HttpErrorResponse) (List Photo)) (ps : List Photo)
    (hsel : s.selectedIds ≠ []) :
    (deletePhotosRequest password ids).method = .delete ∧
    (deletePhotosRequest password ids).path = "/photos" ∧
    ("X-Admin-Password", password) ∈ (deletePhotosRequest password ids).headers ∧
    bodyPhotoIds (deletePhotosRequest password ids) = some ids ∧
    (AdminView.deleteSelected s (.ok ()) fetchResult).shareDetails = none ∧
    (s.adminPassword ≠ "" → fetchResult = .ok ps →
      (AdminView.deleteSelected s (.ok ()) fetchResult).photos = ps ∧
      (AdminView.deleteSelected s (.ok ()) fetchResult).selectedIds = []) := by
  have hlen : ¬ s.selectedIds.length = 0 := by
    intro h
    exact hsel (List.length_eq_zero.1 h)
  have hrun : AdminView.deleteSelected s (.ok ()) fetchResult =
      AdminView.fetchPhotos
        { s with statusMessage := "Photos supprimées", shareDetails := none } fetchResult := by
    unfold AdminView.deleteSelected
    rw [if_neg hlen]
  refine ⟨rfl, rfl, ?_, rfl, ?_, ?_⟩
  · simp [deletePhotosRequest, adminHeaders]
  · rw [hrun]
    unfold AdminView.fetchPhotos
    by_cases hpw : s.adminPassword = ""
    · simp [hpw]
    · rcases fetchResult with e | qs
      · simp [hpw, AdminView.handleError]
        rcases e with - | r
        · simp
        · by_cases h403 : r.status = 403 <;> simp [h403]
      · simp [hpw]
  · intro hpw hfetch
    rw [hrun, hfetch]
    unfold AdminView.fetchPhotos
    simp [hpw]

/-- Witness for C7 at a concrete unlocked state with a successful refetch. -/
theorem deleteSelected_spec_witness :
    (AdminView.deleteSelected
      { adminPassword := "pw", sessionStored := some "pw", photos := [], selectedIds := [1],
        statusMessage := "", errorMessage := "",
        shareDetails := some { token := "tok", share_url := "u", photos := [] } }
      (.ok ()) (.ok [])).shareDetails = none :=
  (deleteSelected_spec "pw" [1]
    { adminPassword := "pw", sessionStored := some "pw", photos := [], selectedIds := [1],
      statusMessage := "", errorMessage := "",
      shareDetails := some { token := "tok", share_url := "u", photos := [] } }
    (.ok []) [] (by decide)).2.2.2.2.1

/-- Claim C8: in every reachable share-view state the selection is a subset
of the ids of the currently displayed photos, and therefore
`downloadSelected` only ever requests ids belonging to the resolved share. -/
theorem shareView_selection_subset (s : ShareView.State) (hs : ShareView.Reachable s) :
    s.selectedIds ⊆ s.photos.map Photo.id ∧
    (∀ token req, ShareView.downloadSelected token s = some req →
      ∃ reqIds, bodyPhotoIds req = some reqIds ∧ reqIds ⊆ s.photos.map Photo.id) := by
  have hsub : s.selectedIds ⊆ s.photos.map Photo.id := by
    induction hs with
    | init => simp [ShareView.initState]
    | fetchOk c ps hr ih => simp [ShareView.step, ShareView.fetchShare]
    | fetchErr d hr ih => simpa [ShareView.step, ShareView.fetchShare] using ih
    | toggle id hr hid ih =>
      simpa [ShareView.step] using toggle_subset ih hid
  refine ⟨hsub, ?_⟩
  intro token req h
  unfold ShareView.downloadSelected at h
  by_cases hlen : s.selectedIds.length = 0
  · rw [if_pos hlen] at h
    exact Option.noConfusion h
  · rw [if_neg hlen] at h
    unfold ShareView.downloadPhotos at h
    by_cases hp : s.photos.isEmpty
    · rw [if_pos hp] at h
      exact Option.noConfusion h
    · rw [if_neg hp] at h
      injection h with h'
      subst h'
      refine ⟨s.selectedIds, ?_, hsub⟩
      have hne : s.selectedIds ≠ [] := fun hnil => hlen (by simp [hnil])
      rcases hl : s.selectedIds with - | ⟨i, tl⟩
      · exact absurd hl hne
      · simp [bodyPhotoIds, downloadRequest]

/-- Witness for C8 at a concrete reachable state: load one photo, toggle it. -/
theorem shareView_selection_subset_witness :
    (ShareView.step
        (ShareView.step ShareView.initState
          (.fetchOk "2024-01-01" [{ id := 1, original_name := "a.jpg", created_at := "d" }]))
        (.toggle 1)).selectedIds ⊆
      (ShareView.step
        (ShareView.step ShareView.initState
          (.fetchOk "2024-01-01" [{ id := 1, original_name := "a.jpg", created_at := "d" }]))
        (.toggle 1)).photos.map Photo.id :=
  (shareView_selection_subset _
    (ShareView.Reachable.toggle 1
      (ShareView.Reachable.fetchOk "2024-01-01"
        [{ id := 1, original_name := "a.jpg", created_at := "d" }]
        ShareView.Reachable.init)
      (by decide))).1

/-- Claim C10: `apiBaseUrl` removes exactly one trailing slash from the
configured base (defaulting when unset); a base ending in at most one slash
yields URLs with a single slash at the base/path junction, while a base
ending in two slashes yields URLs with a double slash there, the
normalization not being idempotent. -/
theorem apiBaseUrl_spec (u v rest : List Char) :
    apiBaseUrl none = defaultBaseUrl ∧
    (u ≠ [] → u.getLast? ≠ some '/' → apiBaseUrl (some u) = u) ∧
    apiBaseUrl (some (v ++ ['/'])) = v ∧
    (u ≠ [] → u.getLast? ≠ some '/' → fileUrlChars (some u) rest = u ++ '/' :: rest) ∧
    (v.getLast? ≠ some '/' →
      fileUrlChars (some (v ++ ['/'])) rest = v ++ '/' :: rest ∧
      (apiBaseUrl (some (v ++ ['/']))).getLast? ≠ some '/') ∧
    fileUrlChars (some (v ++ ['/', '/'])) rest = v ++ '/' :: '/' :: rest ∧
    stripTrailingSlash (stripTrailingSlash ['a', '/', '/']) ≠
      stripTrailingSlash ['a', '/', '/'] := by
  have hraw : ∀ w : List Char, w ≠ [] → rawBaseUrl (some w) = w := by
    intro w hw
    unfold rawBaseUrl
    simp [hw]
  have hbase : ∀ w : List Char, apiBaseUrl (some (w ++ ['/'])) = w := by
    intro w
    unfold apiBaseUrl
    rw [hraw (w ++ ['/']) (by simp)]
    unfold stripTrailingSlash
    simp
  have hid : ∀ w : List Char, w ≠ [] → w.getLast? ≠ some '/' → apiBaseUrl (some w) = w := by
    intro w hw hlast
    unfold apiBaseUrl
    rw [hraw w hw]
    unfold stripTrailingSlash
    rw [if_neg hlast]
  refine ⟨rfl, hid u, hbase v, ?_, ?_, ?_, by decide⟩
  · intro hw hlast
    unfold fileUrlChars
    rw [hid u hw hlast]
  · intro hlast
    refine ⟨?_, ?_⟩
    · unfold fileUrlChars
      rw [hbase v]
    · rw [hbase v]
      exact hlast
  · unfold fileUrlChars
    have hsplit : v ++ ['/', '/'] = (v ++ ['/']) ++ ['/'] := by simp
    rw [hsplit, hbase (v ++ ['/'])]
    simp

/-- Witness for C10 at concrete base URLs. -/
theorem apiBaseUrl_spec_witness :
    apiBaseUrl (some ("http://h".toList)) = "http://h".toList ∧
    fileUrlChars (some ("http://h/".toList)) ("photos".toList) =
      "http://h".toList ++ '/' :: "photos".toList :=
  ⟨(apiBaseUrl_spec ("http://h".toList) [] []).2.1 (by decide) (by decide),
   ((apiBaseUrl_spec [] ("http://h".toList) ("photos".toList)).2.2.2.2.1 (by decide)).1⟩

end AlienShot
